import Mathlib

/-!
Shallow embedding of the arcaflow plugin SDK schema engine
(src/arcaflow_plugin_sdk/schema.py) in Lean 4.

Python values that flow through the engine (wire data and typed data) are
modelled by the inductive `Value`; Python `None` is `Value.vNone`, dataclass
instances are `Value.vObj` with a class name and an attribute map. Exceptions
raised by the engine are modelled by `PyError`; functions that can raise
return `Except PyError _`. Python dynamic dispatch on type objects
(`property.type.unserialize(...)` etc.) is modelled by the record
`AbstractType` holding the three operations. Paths are `List String`,
matching the tuples of strings the source threads through every call.
-/

/-- A Python value as used by the schema engine: the JSON-like wire values
(`None`, bool, int, str, list, dict) and typed dataclass instances
(`vObj cls fields` with `fields` the instance attribute map; a dataclass
instance always carries every declared field, unset optional fields hold
`None`). Dict keys are arbitrary values, as in Python. -/
inductive Value where
  | vNone : Value
  | vBool (b : Bool) : Value
  | vInt (n : Int) : Value
  | vStr (s : String) : Value
  | vList (xs : List Value) : Value
  | vDict (entries : List (Value × Value)) : Value
  | vObj (cls : String) (fields : List (String × Value)) : Value

/-- Python exceptions raised by the engine. `constraint` is
`ConstraintException(path, msg)`; `invalidInput` / `invalidOutput` are
`InvalidInputException` / `InvalidOutputException` wrapping the constraint
they were built from; `attributeError` / `keyError` are the built-in Python
exceptions; `noSuchStep` and `badArgument` mirror `NoSuchStepException` and
`BadArgumentException`. -/
inductive PyError where
  | constraint (path : List String) (msg : String) : PyError
  | invalidInput (path : List String) (msg : String) : PyError
  | invalidOutput (path : List String) (msg : String) : PyError
  | attributeError (msg : String) : PyError
  | keyError (key : String) : PyError
  | noSuchStep (step : String) : PyError
  | badArgument (msg : String) : PyError
deriving Repr, DecidableEq

/-- `type(data).__name__` for the values the engine formats into messages. -/
def Value.typeName : Value → String
  | .vNone => "NoneType"
  | .vBool _ => "bool"
  | .vInt _ => "int"
  | .vStr _ => "str"
  | .vList _ => "list"
  | .vDict _ => "dict"
  | .vObj cls _ => cls

/-- `str(key)` as the source formats dict keys and scalars into messages.
Only the scalar cases are exercised by the engine's message formatting. -/
def Value.pyStr : Value → String
  | .vNone => "None"
  | .vBool b => if b then "True" else "False"
  | .vInt n => toString n
  | .vStr s => s
  | .vList _ => "list"
  | .vDict _ => "dict"
  | .vObj cls _ => cls

mutual

/-- Structural equality on Python values (`==` as the engine uses it on
decoded map keys). -/
def Value.beq : Value → Value → Bool
  | .vNone, .vNone => true
  | .vBool a, .vBool b => a == b
  | .vInt a, .vInt b => a == b
  | .vStr a, .vStr b => a == b
  | .vList a, .vList b => Value.beqList a b
  | .vDict a, .vDict b => Value.beqEntries a b
  | .vObj c a, .vObj d b => c == d && Value.beqFields a b
  | _, _ => false

/-- Elementwise `Value.beq` on lists. -/
def Value.beqList : List Value → List Value → Bool
  | [], [] => true
  | a :: as, b :: bs => Value.beq a b && Value.beqList as bs
  | _, _ => false

/-- Entrywise `Value.beq` on dict entries. -/
def Value.beqEntries : List (Value × Value) → List (Value × Value) → Bool
  | [], [] => true
  | (k₁, v₁) :: as, (k₂, v₂) :: bs =>
      Value.beq k₁ k₂ && Value.beq v₁ v₂ && Value.beqEntries as bs
  | _, _ => false

/-- Fieldwise `Value.beq` on attribute maps. -/
def Value.beqFields : List (String × Value) → List (String × Value) → Bool
  | [], [] => true
  | (k₁, v₁) :: as, (k₂, v₂) :: bs =>
      k₁ == k₂ && Value.beq v₁ v₂ && Value.beqFields as bs
  | _, _ => false

end

/-- Python `is None` / `is not None` tests on a value. -/
def Value.isNone : Value → Bool
  | .vNone => true
  | _ => false

/-- Python `==` between a value and a string (the discriminator
comparisons): true exactly for the equal string. -/
def Value.eqStr : Value → String → Bool
  | .vStr t, s => t == s
  | _, _ => false

/-- Whether a dict key (an arbitrary value) is the string `k`. -/
def keyMatches (k : String) : Value → Bool
  | .vStr s => s == k
  | _ => false

/-- Lookup in a string-keyed association map (a Python `dict[str, ...]` such
as `self.properties` or `self.types`); `d[k]` returns the first binding. -/
def lookupStr {α : Type} (l : List (String × α)) (k : String) : Option α :=
  (l.find? (fun p => p.1 == k)).map (fun p => p.2)

/-- `k in d` for a string-keyed association map. -/
def containsKey {α : Type} (l : List (String × α)) (k : String) : Bool :=
  (lookupStr l k).isSome

/-- `data[k]` for a wire dict whose key is the string `k`. -/
def dictLookup (entries : List (Value × Value)) (k : String) : Option Value :=
  (entries.find? (fun p => keyMatches k p.1)).map (fun p => p.2)

/-- `k in data` for a wire dict and a string key `k`. -/
def dictHasKey (entries : List (Value × Value)) (k : String) : Bool :=
  (dictLookup entries k).isSome

/-- `del data[k]` for a wire dict (Python dicts hold each key once). -/
def dictEraseKey (entries : List (Value × Value)) (k : String) :
    List (Value × Value) :=
  entries.filter (fun p => !(keyMatches k p.1))

/-- `d[k] = v` for a wire dict: replace the binding if the key exists,
append it otherwise. -/
def dictSet (entries : List (Value × Value)) (k : String) (v : Value) :
    List (Value × Value) :=
  if dictHasKey entries k then
    entries.map (fun p => if keyMatches k p.1 then (p.1, v) else p)
  else entries ++ [(Value.vStr k, v)]

/-- `hasattr(data, name)`: true for a dataclass instance that declares the
field. Non-object values (in particular dicts) expose none of the schema
field names as attributes, so this is `false` for them. -/
def hasattr : Value → String → Bool
  | .vObj _ fields, name => containsKey fields name
  | _, _ => false

/-- `getattr(data, name)` on a dataclass instance, defaulting to `None`;
the engine only calls it on fields guaranteed to exist (`_validate_config`
checked the class fields against the properties at build time) or guarded
by `hasattr`. -/
def getattrD : Value → String → Value
  | .vObj _ fields, name => (lookupStr fields name).getD Value.vNone
  | _, _ => Value.vNone

/-- The duck-typed interface every type node implements
(`AbstractType.unserialize` / `validate` / `serialize` in the source):
the three operations, each taking the data and the error path. -/
structure AbstractType where
  unserialize : Value → List String → Except PyError Value
  validate : Value → List String → Except PyError Unit
  serialize : Value → List String → Except PyError Value

/-- Decimal digits read left to right into an accumulator; any non-digit
character fails the parse. -/
def parseNatChars : List Char → Nat → Option Nat
  | [], acc => some acc
  | c :: cs, acc =>
      if c.isDigit then parseNatChars cs (acc * 10 + (c.toNat - 48))
      else none

/-- Python `int(s)` on a string: an optional sign followed by decimal
digits (the engine catches `ValueError` on parse failure and raises a
`ConstraintException` instead). -/
def parsePyInt (s : String) : Option Int :=
  match s.toList with
  | [] => none
  | '-' :: [] => none
  | '+' :: [] => none
  | '-' :: cs => (parseNatChars cs 0).map (fun n => -(n : Int))
  | '+' :: cs => (parseNatChars cs 0).map (fun n => (n : Int))
  | cs => (parseNatChars cs 0).map (fun n => (n : Int))

/-- `isinstance(data, int)` together with `int(data)`: Python `bool` is a
subclass of `int`, so booleans pass the check and coerce to 0 / 1. -/
def pyIntCoerce : Value → Option Int
  | .vInt n => some n
  | .vBool b => some (if b then 1 else 0)
  | _ => none

/-- `IntType`: an integer type with optional inclusive bounds. -/
structure IntType where
  min : Option Int := none
  max : Option Int := none

/-- `IntType.validate`: requires a native int (bounds checked against
`min` / `max` when set). -/
def IntType.validate (t : IntType) (data : Value) (path : List String) :
    Except PyError Unit :=
  match pyIntCoerce data with
  | none =>
      .error (.constraint path ("Must be an integer, " ++ data.typeName ++ " given"))
  | some integer =>
      if t.min.isSome ∧ integer < t.min.getD 0 then
        .error (.constraint path ("Must be at least " ++ toString (t.min.getD 0)))
      else if t.max.isSome ∧ integer > t.max.getD 0 then
        .error (.constraint path ("Must be at most " ++ toString (t.max.getD 0)))
      else .ok ()

/-- `IntType.unserialize`: a string is parsed with `int(...)` (parse failure
raises), then the (possibly re-bound) data is validated and returned. -/
def IntType.unserialize (t : IntType) (data : Value) (path : List String) :
    Except PyError Value :=
  match data with
  | .vStr s =>
      match parsePyInt s with
      | none => .error (.constraint path "Must be an integer")
      | some n =>
          match t.validate (.vInt n) path with
          | .ok _ => .ok (.vInt n)
          | .error e => .error e
  | d =>
      match t.validate d path with
      | .ok _ => .ok d
      | .error e => .error e

/-- `IntType.serialize`: validates, then returns the data unchanged. -/
def IntType.serialize (t : IntType) (data : Value) (path : List String) :
    Except PyError Value :=
  match t.validate data path with
  | .ok _ => .ok data
  | .error e => .error e

/-- The `AbstractType` view of an `IntType`. -/
def IntType.toAbstract (t : IntType) : AbstractType :=
  ⟨t.unserialize, t.validate, t.serialize⟩

/-- `ListType`: a typed list with optional inclusive element-count bounds. -/
structure ListType where
  items : AbstractType
  min : Option Nat := none
  max : Option Nat := none

/-- `ListType._validate`: type and element-count checks shared by the three
operations. -/
def ListType.validateCount (t : ListType) (data : Value) (path : List String) :
    Except PyError Unit :=
  match data with
  | .vList xs =>
      if t.min.isSome ∧ xs.length < t.min.getD 0 then
        .error (.constraint path ("Must have at least " ++ toString (t.min.getD 0)
          ++ " items, " ++ toString xs.length ++ " given"))
      else if t.max.isSome ∧ xs.length > t.max.getD 0 then
        .error (.constraint path ("Must have at most " ++ toString (t.max.getD 0)
          ++ " items, " ++ toString xs.length ++ " given"))
      else .ok ()
  | d => .error (.constraint path ("Must be a list, " ++ d.typeName ++ " given"))

/-- The loop of `ListType.unserialize`, in state-passing form: the source
executes `data[i] = self.items.unserialize(data[i], tuple(new_path))` for
each index, writing the decoded element back into the caller's list. The
first component is the loop outcome, the second is the content of the
caller's list when the loop stops: on an error at index `i` the caller's
list holds decoded elements before `i` and the original ones from `i` on. -/
def listUnserializeLoop (items : AbstractType) (path : List String) :
    Nat → List Value → Except PyError (List Value) × List Value
  | _, [] => (.ok [], [])
  | i, x :: xs =>
      match items.unserialize x (path ++ [toString i]) with
      | .error e => (.error e, x :: xs)
      | .ok y =>
          match listUnserializeLoop items path (i + 1) xs with
          | (.ok ys, _) => (.ok (y :: ys), y :: ys)
          | (.error e, fin) => (.error e, y :: fin)

/-- `ListType.unserialize`, in state-passing form. The source requires a
list, runs the element loop above (mutating the caller's list in place),
applies `_validate` to the now-mutated list, and returns that same list
object. The first component is the returned value or the raised error; the
second is the content of the caller's list after the call. -/
def ListType.unserializeWithEffect (t : ListType) (data : Value)
    (path : List String) : Except PyError Value × Value :=
  match data with
  | .vList xs =>
      match listUnserializeLoop t.items path 0 xs with
      | (.ok ys, _) =>
          match t.validateCount (.vList ys) path with
          | .ok _ => (.ok (.vList ys), .vList ys)
          | .error e => (.error e, .vList ys)
      | (.error e, fin) => (.error e, .vList fin)
  | d =>
      (.error (.constraint path ("Must be a list, " ++ d.typeName ++ " given")), d)

/-- The value `ListType.unserialize` returns (or the error it raises). -/
def ListType.unserialize (t : ListType) (data : Value) (path : List String) :
    Except PyError Value :=
  (t.unserializeWithEffect data path).1

/-- `ListType.validate`: count check, then each element is validated with
the path extended by its index. -/
def ListType.validate (t : ListType) (data : Value) (path : List String) :
    Except PyError Unit :=
  match t.validateCount data path with
  | .error e => .error e
  | .ok _ =>
      match data with
      | .vList xs => listValidateLoop t.items path 0 xs
      | _ => .ok ()
where
  listValidateLoop (items : AbstractType) (path : List String) :
      Nat → List Value → Except PyError Unit
    | _, [] => .ok ()
    | i, x :: xs =>
        match items.validate x (path ++ [toString i]) with
        | .error e => .error e
        | .ok _ => listValidateLoop items path (i + 1) xs

/-- `ListType.serialize`: count check, then each element is serialized into
a fresh result list with the path extended by its index. -/
def ListType.serialize (t : ListType) (data : Value) (path : List String) :
    Except PyError Value :=
  match t.validateCount data path with
  | .error e => .error e
  | .ok _ =>
      match data with
      | .vList xs => (listSerializeLoop t.items path 0 xs).map Value.vList
      | d => .ok d
where
  listSerializeLoop (items : AbstractType) (path : List String) :
      Nat → List Value → Except PyError (List Value)
    | _, [] => .ok []
    | i, x :: xs =>
        match items.serialize x (path ++ [toString i]) with
        | .error e => .error e
        | .ok y =>
            match listSerializeLoop items path (i + 1) xs with
            | .error e => .error e
            | .ok ys => .ok (y :: ys)

/-- The `AbstractType` view of a `ListType`. -/
def ListType.toAbstract (t : ListType) : AbstractType :=
  ⟨t.unserialize, t.validate, t.serialize⟩

/-- `MapType`: a key-value map with typed keys and values and optional
inclusive entry-count bounds. -/
structure MapType where
  keys : AbstractType
  values : AbstractType
  min : Option Nat := none
  max : Option Nat := none

/-- `MapType._validate`: requires a dict; the entry count is checked against
`min` / `max`. A violated bound raises a bare `ConstraintException()` — the
source passes no arguments, so the exception carries the empty path and the
empty message. On success the entries (a copy, `dict(data)`) are returned. -/
def MapType.countCheck (t : MapType) (data : Value) (path : List String) :
    Except PyError (List (Value × Value)) :=
  match data with
  | .vDict entries =>
      if t.min.isSome ∧ entries.length < t.min.getD 0 then
        .error (.constraint [] "")
      else if t.max.isSome ∧ entries.length > t.max.getD 0 then
        .error (.constraint [] "")
      else .ok entries
  | d => .error (.constraint path ("Must be a dict, " ++ d.typeName ++ " given"))

/-- `MapType.unserialize`: `_validate` first, then each key and value is
decoded with the path extended by the raw key and a "key" / "value" marker;
a decoded key that already exists in the result raises. -/
def MapType.unserialize (t : MapType) (data : Value) (path : List String) :
    Except PyError Value :=
  match t.countCheck data path with
  | .error e => .error e
  | .ok entries => (mapUnserializeLoop t path entries []).map Value.vDict
where
  mapUnserializeLoop (t : MapType) (path : List String) :
      List (Value × Value) → List (Value × Value) →
      Except PyError (List (Value × Value))
    | [], result => .ok result
    | (key, value) :: rest, result =>
        let new_path := path ++ [key.pyStr]
        match t.keys.unserialize key (new_path ++ ["key"]) with
        | .error e => .error e
        | .ok unserialized_key =>
            if result.any (fun p => Value.beq p.1 unserialized_key) then
              .error (.constraint (new_path ++ ["key"])
                "Key already exists in result dict")
            else
              match t.values.unserialize value (new_path ++ ["value"]) with
              | .error e => .error e
              | .ok v => mapUnserializeLoop t path rest (result ++ [(unserialized_key, v)])

/-- The host-record binding of an `ObjectType`: the dataclass the engine
constructs (`self._cls`). `fields` lists the declared field names in order
with each field's dataclass default value (`vNone` when the default is
`None`). -/
structure PyClass where
  name : String
  fields : List (String × Value)

/-- `self._cls(**kwargs)`: the dataclass constructor takes the assembled
keyword arguments and fills every field not passed from its own default. -/
def PyClass.construct (c : PyClass) (kwargs : List (String × Value)) : Value :=
  .vObj c.name (c.fields.map (fun fd => (fd.1, (lookupStr kwargs fd.1).getD fd.2)))

/-- `PropertyType`: one property descriptor of an object — the member type
node plus the requiredness and conflict rule sets and the optional wire
field-name override (`field_override`, empty when unused). -/
structure PropertyType where
  type : AbstractType
  required : Bool := false
  required_if : List String := []
  required_if_not : List String := []
  conflicts : List String := []
  field_override : String := ""

/-- `ObjectType`: an object with predefined fields; `properties` is the
ordered property-name → descriptor mapping, `cls` the bound dataclass. -/
structure ObjectType where
  cls : PyClass
  properties : List (String × PropertyType)

/-- `ObjectType._validate_not_set`: the requiredness algorithm for an
absent (or `None`-valued) property. `data` is the raw dict in the
unserialize path and the dataclass instance in the validate/serialize
path. Note the `required_if` presence test: for a dataclass sibling it is
`hasattr(data, required_if) and getattr(data, required_if) is None` in the
source — `is None`, not `is not None`. -/
def ObjectType.validateNotSet (data : Value) (object_property : PropertyType)
    (path : List String) : Except PyError Unit :=
  if object_property.required then
    .error (.constraint path "This field is required")
  else
    let isSetIf := fun (required_if : String) =>
      (match data with
        | .vDict entries => dictHasKey entries required_if
        | _ => false) ||
      (hasattr data required_if && (getattrD data required_if).isNone)
    match object_property.required_if.find? isSetIf with
    | some required_if =>
        .error (.constraint path
          ("This field is required because '" ++ required_if ++ "' is set"))
    | none =>
        if object_property.required_if_not.length > 0 then
          let isSetIfNot := fun (required_if_not : String) =>
            (match data with
              | .vDict entries => dictHasKey entries required_if_not
              | _ => false) ||
            (hasattr data required_if_not && !(getattrD data required_if_not).isNone)
          if object_property.required_if_not.any isSetIfNot then .ok ()
          else if object_property.required_if_not.length == 1 then
            .error (.constraint path
              ("This field is required because '"
                ++ object_property.required_if_not.headD "" ++ "' is not set"))
          else
            .error (.constraint path
              ("This field is required because none of '"
                ++ String.intercalate "', '" object_property.required_if_not
                ++ "' are set"))
        else .ok ()

/-- The property loop of `ObjectType.unserialize`: for each declared
property in order, a present non-`None` wire value is recursively decoded
into the kwargs under the (possibly overridden) field name and the
property's `conflicts` are checked against the raw keys; an absent or
`None` value goes through `_validate_not_set`. Returns the assembled
kwargs. -/
def ObjectType.unserializeProps (entries : List (Value × Value))
    (path : List String) :
    List (String × PropertyType) → Except PyError (List (String × Value))
  | [] => .ok []
  | (property_id, object_property) :: rest =>
      let property_value := (dictLookup entries property_id).getD .vNone
      let new_path := path ++ [property_id]
      if !property_value.isNone then
        let field_id :=
          if !(object_property.field_override == "") then object_property.field_override
          else property_id
        match object_property.type.unserialize property_value new_path with
        | .error e => .error e
        | .ok v =>
            match object_property.conflicts.find? (fun c => dictHasKey entries c) with
            | some conflict =>
                .error (.constraint new_path
                  ("Field conflicts '" ++ conflict ++ "', set one of the two, not both"))
            | none =>
                match ObjectType.unserializeProps entries path rest with
                | .error e => .error e
                | .ok kwargs => .ok ((field_id, v) :: kwargs)
      else
        match ObjectType.validateNotSet (.vDict entries) object_property new_path with
        | .error e => .error e
        | .ok _ => ObjectType.unserializeProps entries path rest

/-- The unknown-key test of `ObjectType.unserialize`: a raw dict entry
whose key is not the name of a declared property (non-string keys are
never declared names). -/
def ObjectType.unknownKey (o : ObjectType) (kv : Value × Value) : Bool :=
  !(match kv.1 with
    | .vStr k => containsKey o.properties k
    | _ => false)

/-- `ObjectType.unserialize`: requires a dict; every wire key must name a
declared property (the error enumerates the declared names); the property
loop assembles the kwargs; the dataclass is constructed from them. -/
def ObjectType.unserialize (o : ObjectType) (data : Value) (path : List String) :
    Except PyError Value :=
  match data with
  | .vDict entries =>
      match entries.find? o.unknownKey with
      | some kv =>
          .error (.constraint path
            ("Invalid parameter '" ++ kv.1.pyStr ++ "', expected one of: "
              ++ String.intercalate ", " (o.properties.map (fun p => p.1))))
      | none =>
          match ObjectType.unserializeProps entries path o.properties with
          | .error e => .error e
          | .ok kwargs => .ok (o.cls.construct kwargs)
  | d => .error (.constraint path ("Must be a dict, got " ++ d.typeName))

/-- `ObjectType._validate_property`: builds the property's path, reads the
field value off the dataclass instance, and runs `_validate_not_set` when
the value is `None`. Returns the path and the value. -/
def ObjectType.validateProperty (o : ObjectType) (data : Value)
    (path : List String) (field_id property_id : String) :
    Except PyError (List String × Value) :=
  let new_path := path ++ [property_id]
  let value := getattrD data field_id
  match lookupStr o.properties property_id with
  | none => .error (.keyError property_id)
  | some property_field =>
      if value.isNone then
        match ObjectType.validateNotSet data property_field new_path with
        | .error e => .error e
        | .ok _ => .ok (new_path, value)
      else .ok (new_path, value)

/-- Pass 1 of `ObjectType.validate`: collect each property's current field
value; a non-`None` value is recursively validated and recorded in
`values`; a `None` value goes through `_validate_not_set` (inside
`_validate_property`). -/
def ObjectType.validatePass1 (o : ObjectType) (data : Value) (path : List String) :
    List (String × PropertyType) → Except PyError (List (String × Value))
  | [] => .ok []
  | (property_id, property_field) :: rest =>
      let field_id :=
        if !(property_field.field_override == "") then property_field.field_override
        else property_id
      match o.validateProperty data path field_id property_id with
      | .error e => .error e
      | .ok (new_path, value) =>
          if !value.isNone then
            match property_field.type.validate value new_path with
            | .error e => .error e
            | .ok _ =>
                match ObjectType.validatePass1 o data path rest with
                | .error e => .error e
                | .ok values => .ok ((property_id, value) :: values)
          else ObjectType.validatePass1 o data path rest

/-- Pass 2 of `ObjectType.validate`: re-walk all properties; a property
found present is checked for conflicts against the present set; a property
found absent is checked for `required`, `required_if_not` and
`required_if`. The source's `required_if` branch re-uses the
`required_if_not` wording for its message (lines 1716-1722). -/
def ObjectType.validatePass2 (values : List (String × Value)) (path : List String) :
    List (String × PropertyType) → Except PyError Unit
  | [] => .ok ()
  | (property_id, property_field) :: rest =>
      let new_path := path ++ [property_id]
      if containsKey values property_id then
        match property_field.conflicts.find? (fun c => containsKey values c) with
        | some conflicts =>
            .error (.constraint new_path ("Field conflicts with " ++ conflicts))
        | none => ObjectType.validatePass2 values path rest
      else
        if property_field.required then
          .error (.constraint new_path "Field is required but not set")
        else
          let step2 :=
            if property_field.required_if_not.length > 0 then
              if property_field.required_if_not.any (fun r => containsKey values r) then
                Except.ok ()
              else
                Except.error (PyError.constraint new_path
                  ("Field is required because none of '"
                    ++ String.intercalate "', '" property_field.required_if_not
                    ++ "' are set"))
            else Except.ok ()
          match step2 with
          | .error e => .error e
          | .ok _ =>
              match property_field.required_if.find? (fun r => containsKey values r) with
              | some _ =>
                  .error (.constraint new_path
                    ("Field is required because none of '"
                      ++ String.intercalate "', '" property_field.required_if_not
                      ++ "' are set"))
              | none => ObjectType.validatePass2 values path rest

/-- `ObjectType.validate`: requires an instance of the bound dataclass,
then runs the two passes. -/
def ObjectType.validate (o : ObjectType) (data : Value) (path : List String) :
    Except PyError Unit :=
  match data with
  | .vObj cls _ =>
      if !(cls == o.cls.name) then
        .error (.constraint path
          ("Must be an instance of " ++ o.cls.name ++ ", " ++ data.typeName ++ " given"))
      else
        match ObjectType.validatePass1 o data path o.properties with
        | .error e => .error e
        | .ok values => ObjectType.validatePass2 values path o.properties
  | d =>
      .error (.constraint path
        ("Must be an instance of " ++ o.cls.name ++ ", " ++ d.typeName ++ " given"))

/-- The property loop of `ObjectType.serialize`: each property goes through
`_validate_property` (so absent values run the requiredness algorithm); a
present value is recursively serialized into the result under the property
name. No conflict check is performed in this loop. -/
def ObjectType.serializeProps (o : ObjectType) (data : Value) (path : List String) :
    List (String × PropertyType) → Except PyError (List (Value × Value))
  | [] => .ok []
  | (property_id, property_field) :: rest =>
      let field_id :=
        if !(property_field.field_override == "") then property_field.field_override
        else property_id
      match o.validateProperty data path field_id property_id with
      | .error e => .error e
      | .ok (new_path, value) =>
          if !value.isNone then
            match property_field.type.serialize (getattrD data field_id) new_path with
            | .error e => .error e
            | .ok sv =>
                match ObjectType.serializeProps o data path rest with
                | .error e => .error e
                | .ok result => .ok ((Value.vStr property_id, sv) :: result)
          else ObjectType.serializeProps o data path rest

/-- `ObjectType.serialize`: requires an instance of the bound dataclass,
then projects the present properties to a wire dict. -/
def ObjectType.serialize (o : ObjectType) (data : Value) (path : List String) :
    Except PyError Value :=
  match data with
  | .vObj cls _ =>
      if !(cls == o.cls.name) then
        .error (.constraint path
          ("Must be an instance of " ++ o.cls.name ++ ", " ++ data.typeName ++ " given"))
      else
        match ObjectType.serializeProps o data path o.properties with
        | .error e => .error e
        | .ok result => .ok (.vDict result)
  | d =>
      .error (.constraint path
        ("Must be an instance of " ++ o.cls.name ++ ", " ++ d.typeName ++ " given"))

/-- The `AbstractType` view of an `ObjectType`. -/
def ObjectType.toAbstract (o : ObjectType) : AbstractType :=
  ⟨o.unserialize, o.validate, o.serialize⟩

/-- `OneOfStringType`: a discriminated union of object types keyed by a
string discriminator value; `discriminator_field_name` defaults to
`"_type"` in the source. -/
structure OneOfStringType where
  types : List (String × ObjectType)
  discriminator_field_name : String := "_type"

/-- `OneOfStringType.unserialize`, in state-passing form. The source
requires a dict containing the discriminator field, requires the field's
value to be a string (`String required, ... found` otherwise — no
coercion), requires it to name a registered member (the error lists the
valid keys), deletes the discriminator key from the caller's dict when the
member does not declare it as a property (`del data[...]`, an in-place
mutation), and delegates to the member with the unchanged path. The first
component is the returned value or raised error; the second is the content
of the caller's dict at the moment of delegation — which is the caller's
dict after the call whenever the member's own decoding does not further
mutate the shared values (it never touches the dict's keys). -/
def OneOfStringType.unserializeWithEffect (t : OneOfStringType) (data : Value)
    (path : List String) : Except PyError Value × Value :=
  match data with
  | .vDict entries =>
      let new_path := path ++ [t.discriminator_field_name]
      if !(dictHasKey entries t.discriminator_field_name) then
        (.error (.constraint new_path "Required discriminator field not found"), data)
      else
        match (dictLookup entries t.discriminator_field_name).getD .vNone with
        | .vStr unserialized_discriminator_field =>
            (match lookupStr t.types unserialized_discriminator_field with
            | none =>
                (.error (.constraint new_path
                  ("Invalid value for field: '" ++ unserialized_discriminator_field
                    ++ "' expected one of: '"
                    ++ String.intercalate "', '" (t.types.map (fun p => p.1)) ++ "'")),
                  data)
            | some sub_type =>
                if !(containsKey sub_type.properties t.discriminator_field_name) then
                  let data2 :=
                    Value.vDict (dictEraseKey entries t.discriminator_field_name)
                  (sub_type.unserialize data2 path, data2)
                else (sub_type.unserialize data path, data))
        | other =>
            (.error (.constraint new_path
              ("String required, " ++ other.typeName ++ " found")), data)
  | d => (.error (.constraint path ("Must be a dict, got " ++ d.typeName)), data)

/-- The value `OneOfStringType.unserialize` returns (or the error it
raises). -/
def OneOfStringType.unserialize (t : OneOfStringType) (data : Value)
    (path : List String) : Except PyError Value :=
  (t.unserializeWithEffect data path).1

/-- `OneOfStringType.validate`: selects the first member whose bound class
matches the value's runtime type and validates via it (with the default
empty path, as in the source); if the member declares the discriminator
field as a property, its value must equal the member's discriminator key.
No match raises an error listing all member class names. -/
def OneOfStringType.validate (t : OneOfStringType) (data : Value)
    (path : List String) : Except PyError Unit :=
  match t.types.find? (fun p => data.typeName == p.2.cls.name
      && (match data with | .vObj _ _ => true | _ => false)) with
  | some dt =>
      let discriminator := dt.1
      let item_schema := dt.2
      match item_schema.validate data [] with
      | .error e => .error e
      | .ok _ =>
          if containsKey item_schema.properties t.discriminator_field_name then
            if !((getattrD data t.discriminator_field_name).eqStr discriminator) then
              .error (.constraint (path ++ [t.discriminator_field_name])
                ("Invalid value for '" ++ t.discriminator_field_name ++ "' on '"
                  ++ item_schema.cls.name ++ "', should be: '" ++ discriminator ++ "'"))
            else .ok ()
          else .ok ()
  | none =>
      .error (.constraint path
        ("Invalid type: '" ++ data.typeName ++ "', expected one of '"
          ++ String.intercalate "', '" (t.types.map (fun p => p.2.cls.name)) ++ "'"))

/-- `OneOfStringType.serialize`: selects the first member whose bound class
matches the value's runtime type and serializes via it (with the default
empty path, as in the source); if the member declares the discriminator
field, its value must equal the member's key (mismatch raises), otherwise
the discriminator key/value pair is injected into the produced dict. No
match raises an error listing all member class names. -/
def OneOfStringType.serialize (t : OneOfStringType) (data : Value)
    (path : List String) : Except PyError Value :=
  match t.types.find? (fun p => data.typeName == p.2.cls.name
      && (match data with | .vObj _ _ => true | _ => false)) with
  | some dt =>
      let discriminator := dt.1
      let item_schema := dt.2
      match item_schema.serialize data [] with
      | .error e => .error e
      | .ok serialized_data =>
          if containsKey item_schema.properties t.discriminator_field_name then
            if !((getattrD data t.discriminator_field_name).eqStr discriminator) then
              .error (.constraint (path ++ [t.discriminator_field_name])
                ("Invalid value for '" ++ t.discriminator_field_name ++ "' on '"
                  ++ item_schema.cls.name ++ "', should be: '" ++ discriminator ++ "'"))
            else .ok serialized_data
          else
            match serialized_data with
            | .vDict result =>
                .ok (.vDict (dictSet result t.discriminator_field_name
                  (.vStr discriminator)))
            | other => .ok other
  | none =>
      .error (.constraint path
        ("Invalid type: '" ++ data.typeName ++ "', expected one of '"
          ++ String.intercalate "', '" (t.types.map (fun p => p.2.cls.name)) ++ "'"))

/-- `ScopeType`: a container of named object definitions with a designated
root. -/
structure ScopeType where
  root : String
  objects : List (String × ObjectType)

/-- Python attribute lookup `root_object.__name__` on an `ObjectType`
*instance*, as performed by all three `ScopeType` operations. `__name__`
is not an instance attribute and is not found in the class dictionaries of
`ObjectType`, `ObjectSchema`, `AbstractType`, `Generic` or `object` (it is
an attribute of class objects themselves, provided by the metaclass), so
the lookup raises `AttributeError`. -/
def ObjectType.getDunderName (_root_object : ObjectType) : Except PyError String :=
  .error (.attributeError "'ObjectType' object has no attribute '__name__'")

/-- `ScopeType.unserialize`: looks up the root object and delegates with
the path extended by `root_object.__name__`. -/
def ScopeType.unserialize (s : ScopeType) (data : Value) (path : List String) :
    Except PyError Value :=
  match lookupStr s.objects s.root with
  | none => .error (.keyError s.root)
  | some root_object =>
      match root_object.getDunderName with
      | .error e => .error e
      | .ok nm => root_object.unserialize data (path ++ [nm])

/-- `ScopeType.validate`: looks up the root object and delegates with the
path extended by `root_object.__name__`. -/
def ScopeType.validate (s : ScopeType) (data : Value) (path : List String) :
    Except PyError Unit :=
  match lookupStr s.objects s.root with
  | none => .error (.keyError s.root)
  | some root_object =>
      match root_object.getDunderName with
      | .error e => .error e
      | .ok nm => root_object.validate data (path ++ [nm])

/-- `ScopeType.serialize`: looks up the root object and delegates with the
path extended by `root_object.__name__`. -/
def ScopeType.serialize (s : ScopeType) (data : Value) (path : List String) :
    Except PyError Value :=
  match lookupStr s.objects s.root with
  | none => .error (.keyError s.root)
  | some root_object =>
      match root_object.getDunderName with
      | .error e => .error e
      | .ok nm => root_object.serialize data (path ++ [nm])

/-- `StepType`: a step binds an input type, a handler and the named output
types. The input and output type objects are duck-typed (the source wires
in `ScopeType` values, but only ever calls the three operations on them),
so they are modelled as `AbstractType`. The handler is the external
collaborator: a function from the typed input to an output id and output
value (the source's `len(result) != 2` check cannot fire for a
pair-returning handler and is omitted). -/
structure StepType where
  input : AbstractType
  outputs : List (String × AbstractType)
  handler : Value → String × Value

/-- `StepType.__call__`: optionally validates the input (path `["input"]`),
runs the handler, requires the returned output id to be declared
(`BadArgumentException` otherwise), and optionally validates the output
(path `["output", output_id]`). -/
def StepType.call (s : StepType) (params : Value)
    (skip_input_validation skip_output_validation : Bool) :
    Except PyError (String × Value) :=
  let run : Except PyError Unit :=
    if !skip_input_validation then s.input.validate params ["input"] else .ok ()
  match run with
  | .error e => .error e
  | .ok _ =>
      let result := s.handler params
      let output_id := result.1
      let output_data := result.2
      match lookupStr s.outputs output_id with
      | none =>
          .error (.badArgument
            ("The step returned an undeclared output ID: " ++ output_id
              ++ ", please return one of: '"
              ++ String.intercalate "', '" (s.outputs.map (fun p => p.1)) ++ "'"))
      | some output =>
          let runOut : Except PyError Unit :=
            if !skip_output_validation then
              output.validate output_data ["output", output_id]
            else .ok ()
          match runOut with
          | .error e => .error e
          | .ok _ => .ok (output_id, output_data)

/-- `SchemaType`: the top-level name → step mapping and external call
surface. -/
structure SchemaType where
  steps : List (String × StepType)

/-- `SchemaType._unserialize_input`: decodes the raw input against the
step's input type; a `ConstraintException` is caught and re-raised as
`InvalidInputException`; any other exception propagates unchanged. -/
def SchemaType.unserializeInputOf (step : StepType) (data : Value) :
    Except PyError Value :=
  match step.input.unserialize data [] with
  | .ok v => .ok v
  | .error (.constraint p m) => .error (.invalidInput p m)
  | .error e => .error e

/-- `SchemaType.unserialize_input`: step lookup
(`NoSuchStepException` when absent), then `_unserialize_input`. -/
def SchemaType.unserialize_input (s : SchemaType) (step_id : String)
    (data : Value) : Except PyError Value :=
  match lookupStr s.steps step_id with
  | none => .error (.noSuchStep step_id)
  | some step => SchemaType.unserializeInputOf step data

/-- `SchemaType._serialize_output`: encodes the typed output against the
named output type; a `ConstraintException` is caught and re-raised as
`InvalidOutputException`; any other exception propagates unchanged. -/
def SchemaType.serializeOutputOf (step : StepType) (output_id : String)
    (output_data : Value) : Except PyError Value :=
  match lookupStr step.outputs output_id with
  | none => .error (.keyError output_id)
  | some output =>
      match output.serialize output_data [] with
      | .ok v => .ok v
      | .error (.constraint p m) => .error (.invalidOutput p m)
      | .error e => .error e

/-- `SchemaType.serialize_output`: step lookup, then `_serialize_output`. -/
def SchemaType.serialize_output (s : SchemaType) (step_id output_id : String)
    (output_data : Value) : Except PyError Value :=
  match lookupStr s.steps step_id with
  | none => .error (.noSuchStep step_id)
  | some step => SchemaType.serializeOutputOf step output_id output_data

/-- `SchemaType.__call__`: step lookup, `_unserialize_input`, the step call
with both duplicate validations skipped, then either (with
`skip_serialization`) a direct, unwrapped `outputs[output_id].validate` of
the output, or `_serialize_output`. -/
def SchemaType.call (s : SchemaType) (step_id : String) (data : Value)
    (skip_serialization : Bool) : Except PyError (String × Value) :=
  match lookupStr s.steps step_id with
  | none => .error (.noSuchStep step_id)
  | some step =>
      match SchemaType.unserializeInputOf step data with
      | .error e => .error e
      | .ok input_param =>
          match step.call input_param true true with
          | .error e => .error e
          | .ok (output_id, output_data) =>
              if skip_serialization then
                match lookupStr step.outputs output_id with
                | none => .error (.keyError output_id)
                | some output =>
                    match output.validate output_data [] with
                    | .error e => .error e
                    | .ok _ => .ok (output_id, output_data)
              else
                match SchemaType.serializeOutputOf step output_id output_data with
                | .error e => .error e
                | .ok serialized_output_data => .ok (output_id, serialized_output_data)

/-! Concrete schema fixtures used to settle the claims on explicit inputs. -/

/-- A bare `IntType()` as a duck-typed type node. -/
def intT : AbstractType := IntType.toAbstract {}

/-- An object with two optional int properties where `X` declares
`conflicts=["Y"]` and `Y` declares nothing. -/
def conflictObj : ObjectType :=
  ⟨⟨"C", [("X", .vNone), ("Y", .vNone)]⟩,
   [("X", { type := intT, conflicts := ["Y"] }),
    ("Y", { type := intT })]⟩

/-- An object with two optional int properties where `a` declares
`required_if=["b"]` and `b` declares nothing. -/
def reqIfObj : ObjectType :=
  ⟨⟨"P2", [("a", .vNone), ("b", .vNone)]⟩,
   [("a", { type := intT, required_if := ["b"] }),
    ("b", { type := intT })]⟩

/-- A member object with a single int property `f` and no property named
`_type`. -/
def memberA : ObjectType :=
  ⟨⟨"A", [("f", .vNone)]⟩, [("f", { type := intT })]⟩

/-- A one-of string union with the single member `memberA` registered
under the discriminator value `"a"` (default discriminator field
`_type`). -/
def oneofA : OneOfStringType := { types := [("a", memberA)] }

/-- A map of ints with `min=1` entries. -/
def mapMin1 : MapType := { keys := intT, values := intT, min := some 1 }

/-- A map of ints with `max=1` entries. -/
def mapMax1 : MapType := { keys := intT, values := intT, max := some 1 }

/-- A scope whose root `"A"` resolves to `memberA`. -/
def scopeA : ScopeType := ⟨"A", [("A", memberA)]⟩

/-- A list of ints without count bounds. -/
def listInt : ListType := { items := intT }

/-- An object with a single required int property `x`, used as a step
output type whose validation fails on an unset `x`. -/
def outObj : ObjectType :=
  ⟨⟨"Out", [("x", .vNone)]⟩, [("x", { type := intT, required := true })]⟩

/-- An object with no properties, used as a trivially-decodable step input
type. -/
def inObj : ObjectType := ⟨⟨"In", []⟩, []⟩

/-- A step whose handler returns the declared output id `"out"` with a
value that violates the output type (`x` unset though required). The
input and output type objects are the duck-typed views of `inObj` and
`outObj` (the source's wiring puts `ScopeType` values here and only ever
calls the three operations on them). -/
def stepBadOutput : StepType :=
  ⟨inObj.toAbstract, [("out", outObj.toAbstract)],
   fun _ => ("out", .vObj "Out" [("x", .vNone)])⟩

/-- A schema holding `stepBadOutput` under the id `"s"`. -/
def schemaBadOutput : SchemaType := ⟨[("s", stepBadOutput)]⟩

/-- The schematic object of the conflicts matrix: two optional properties
`X` and `Y` with arbitrary member types, where `X` declares
`conflicts=["Y"]` and `Y` declares no rules. -/
def xyObj (TX TY : AbstractType) (c : PyClass) : ObjectType :=
  ⟨c, [("X", { type := TX, conflicts := ["Y"] }), ("Y", { type := TY })]⟩

/-- C1 counterexample: on the typed value with both conflicting properties
`X` and `Y` present, `ObjectType.validate` raises a ConstraintError for
the declared conflict while `ObjectType.serialize` does not re-check
conflicts and successfully produces the wire mapping — refuting the claim
that serialize applies the same constraint checks as validate. -/
theorem C1_counterexample :
    conflictObj.validate (.vObj "C" [("X", .vInt 1), ("Y", .vInt 2)]) []
      = .error (.constraint ["X"] "Field conflicts with Y") ∧
    conflictObj.serialize (.vObj "C" [("X", .vInt 1), ("Y", .vInt 2)]) []
      = .ok (.vDict [(.vStr "X", .vInt 1), (.vStr "Y", .vInt 2)]) :=
  ⟨rfl, rfl⟩

/-- C2: the claim is right and the code is wrong. Decode follows the
requiredness matrix — a raw mapping omitting both `a` (which declares
`required_if=["b"]`) and `b` decodes successfully — but `validate` on the
already-typed value with both fields unset raises a ConstraintError
("required because 'b' is set" although `b` is `None`): the source's
`_validate_not_set` tests `getattr(data, required_if) is None` where the
condition for a sibling being *set* requires `is not None`. -/
theorem C2_validate_rejects_both_absent :
    reqIfObj.unserialize (.vDict []) []
      = .ok (.vObj "P2" [("a", .vNone), ("b", .vNone)]) ∧
    reqIfObj.validate (.vObj "P2" [("a", .vNone), ("b", .vNone)]) []
      = .error (.constraint ["a"] "This field is required because 'b' is set") :=
  ⟨rfl, rfl⟩

/-- C4: for the one-of string union whose member declares no property
named `_type`, decoding the raw mapping with `_type: "a"` and `f: 1`
succeeds; the member itself rejects the un-stripped mapping (showing the
discriminator key was removed before delegation); and encoding the decoded
value re-injects the discriminator pair next to `f: 1`. -/
theorem C4_discriminator_strip_and_reinject :
    oneofA.unserialize (.vDict [(.vStr "_type", .vStr "a"), (.vStr "f", .vInt 1)]) []
      = .ok (.vObj "A" [("f", .vInt 1)]) ∧
    memberA.unserialize (.vDict [(.vStr "_type", .vStr "a"), (.vStr "f", .vInt 1)]) []
      = .error (.constraint [] "Invalid parameter '_type', expected one of: f") ∧
    oneofA.serialize (.vObj "A" [("f", .vInt 1)]) []
      = .ok (.vDict [(.vStr "f", .vInt 1), (.vStr "_type", .vStr "a")]) :=
  ⟨rfl, rfl, rfl⟩

/-- C6: the claim is right and the code is wrong. A map decoded at path
`["m"]` that violates its declared `min` (or `max`) entry count raises a
`ConstraintException()` built with no arguments: the error carries the
empty path — not the path at which the map occurs — and the empty message
instead of a human-readable reason. -/
theorem C6_map_count_error_is_bare :
    mapMin1.unserialize (.vDict []) ["m"] = .error (.constraint [] "") ∧
    mapMax1.unserialize (.vDict [(.vInt 1, .vInt 1), (.vInt 2, .vInt 2)]) ["m"]
      = .error (.constraint [] "") :=
  ⟨rfl, rfl⟩

/-- C8 counterexample: on a mapping whose `_type` discriminator holds the
integer 1, one-of decode raises "String required, int found" instead of
coercing the value to a string — refuting the claim that an integer
discriminator value is accepted and stringified. -/
theorem C8_counterexample :
    oneofA.unserialize (.vDict [(.vStr "_type", .vInt 1), (.vStr "f", .vInt 1)]) []
      = .error (.constraint ["_type"] "String required, int found") :=
  rfl

/-- C9 counterexample: decoding the raw list `["5"]` against a list of
ints leaves the caller's list holding `[5]` (the loop writes each decoded
element back into the passed list, which is also the returned object), and
one-of decode removes the `_type` key from the caller's mapping — refuting
the claim that decode leaves the caller-supplied raw data unchanged. -/
theorem C9_counterexample :
    listInt.unserializeWithEffect (.vList [.vStr "5"]) []
      = (.ok (.vList [.vInt 5]), .vList [.vInt 5]) ∧
    Value.vList [.vInt 5] ≠ Value.vList [.vStr "5"] ∧
    (oneofA.unserializeWithEffect
        (.vDict [(.vStr "_type", .vStr "a"), (.vStr "f", .vInt 1)]) []).2
      = .vDict [(.vStr "f", .vInt 1)] ∧
    Value.vDict [(.vStr "f", .vInt 1)]
      ≠ Value.vDict [(.vStr "_type", .vStr "a"), (.vStr "f", .vInt 1)] :=
  ⟨rfl, by simp, rfl, by simp⟩

/-- C5 counterexample: calling the schema with `skip_serialization=True`
on a step whose handler returns an output violating its declared output
type makes `SchemaType.__call__` validate the output directly, outside the
try/except wrapping, so the bare ConstraintError reaches the caller
unwrapped (neither InvalidInput nor InvalidOutput) — refuting the claim
that a bare ConstraintError never escapes the Schema boundary. -/
theorem C5_counterexample :
    schemaBadOutput.call "s" (.vDict []) true
      = .error (.constraint ["x"] "This field is required") :=
  rfl

/-- C7: the claim is right and the code is wrong. For every scope whose
root identifier resolves to an object definition, all three `ScopeType`
operations evaluate `root_object.__name__` on the `ObjectType` instance
first, which raises `AttributeError`: no operation ever delegates to the
root object or extends the path. -/
theorem C7_scope_raises_attribute_error (s : ScopeType)
    (root_object : ObjectType) (data : Value) (path : List String)
    (h : lookupStr s.objects s.root = some root_object) :
    s.unserialize data path
      = .error (.attributeError "'ObjectType' object has no attribute '__name__'") ∧
    s.validate data path
      = .error (.attributeError "'ObjectType' object has no attribute '__name__'") ∧
    s.serialize data path
      = .error (.attributeError "'ObjectType' object has no attribute '__name__'") := by
  refine ⟨?_, ?_, ?_⟩ <;>
    simp [ScopeType.unserialize, ScopeType.validate, ScopeType.serialize, h,
      ObjectType.getDunderName]

/-- C7 witness: the concrete scope `scopeA` resolves its root and its
unserialize raises the AttributeError. -/
theorem C7_scope_raises_attribute_error_witness :
    ScopeType.unserialize scopeA (.vDict [(.vStr "f", .vInt 1)]) []
      = .error (.attributeError "'ObjectType' object has no attribute '__name__'") :=
  (C7_scope_raises_attribute_error scopeA memberA
    (.vDict [(.vStr "f", .vInt 1)]) [] rfl).1

/-- C8 amended: for every one-of string union, a mapping whose
discriminator field holds an integer is rejected with "String required,
int found" (no coercion to the discriminator type happens), and a mapping
whose discriminator holds a string matching no registered key is rejected
with a decode error listing all valid keys. -/
theorem C8_amended (t : OneOfStringType) (entries1 entries2 : List (Value × Value))
    (path : List String) (n : Int) (s : String)
    (h1 : dictLookup entries1 t.discriminator_field_name = some (.vInt n))
    (h2 : dictLookup entries2 t.discriminator_field_name = some (.vStr s))
    (h3 : lookupStr t.types s = none) :
    t.unserialize (.vDict entries1) path
      = .error (.constraint (path ++ [t.discriminator_field_name])
        "String required, int found") ∧
    t.unserialize (.vDict entries2) path
      = .error (.constraint (path ++ [t.discriminator_field_name])
        ("Invalid value for field: '" ++ s ++ "' expected one of: '"
          ++ String.intercalate "', '" (t.types.map (fun p => p.1)) ++ "'")) := by
  constructor <;>
    simp [OneOfStringType.unserialize, OneOfStringType.unserializeWithEffect,
      dictHasKey, h1, h2, h3, Value.typeName]

/-- C8 amended witness: the union `oneofA` at the discriminator values
`1 : int` and the unmatched string `"zz"`. -/
theorem C8_amended_witness :
    OneOfStringType.unserialize oneofA
        (.vDict [(.vStr "_type", .vInt 1), (.vStr "f", .vInt 1)]) []
      = .error (.constraint ["_type"] "String required, int found") ∧
    OneOfStringType.unserialize oneofA
        (.vDict [(.vStr "_type", .vStr "zz"), (.vStr "f", .vInt 1)]) []
      = .error (.constraint ["_type"]
        "Invalid value for field: 'zz' expected one of: 'a'") :=
  C8_amended oneofA
    [(.vStr "_type", .vInt 1), (.vStr "f", .vInt 1)]
    [(.vStr "_type", .vStr "zz"), (.vStr "f", .vInt 1)]
    [] 1 "zz" rfl rfl rfl

/-- Helper: whenever `ListType.unserializeWithEffect` succeeds, the
caller's list content (second component) equals the returned decoded list:
the loop wrote every decoded element back into the list it was passed. -/
theorem listUnserialize_ok_final (t : ListType) (d : Value) (p : List String)
    (r fin : Value) (h : t.unserializeWithEffect d p = (.ok r, fin)) :
    fin = r := by
  unfold ListType.unserializeWithEffect at h
  split at h
  · split at h
    · split at h
      · injection h with h1 h2
        injection h1 with h1
        rw [← h2, ← h1]
      · simp_all
    · simp_all
  · simp_all

/-- C9 amended: list decode and one-of decode mutate the caller's raw
data. For every list type, a successful decode leaves the caller's list
holding exactly the decoded elements (not the original raw ones); for
every one-of string union whose matched member does not declare the
discriminator field, decode hands the member — and leaves the caller
with — the mapping with the discriminator key deleted. -/
theorem C9_amended (lt : ListType) (d : Value) (p : List String) (r fin : Value)
    (t : OneOfStringType) (entries : List (Value × Value)) (path : List String)
    (s : String) (sub : ObjectType)
    (hl : lt.unserializeWithEffect d p = (.ok r, fin))
    (h1 : dictLookup entries t.discriminator_field_name = some (.vStr s))
    (h2 : lookupStr t.types s = some sub)
    (h3 : containsKey sub.properties t.discriminator_field_name = false) :
    fin = r ∧
    (t.unserializeWithEffect (.vDict entries) path).2
      = .vDict (dictEraseKey entries t.discriminator_field_name) := by
  constructor
  · exact listUnserialize_ok_final lt d p r fin hl
  · simp [OneOfStringType.unserializeWithEffect, dictHasKey, h1, h2, h3]

/-- C9 amended witness: decoding `["5"]` leaves the caller's list holding
`[5]`, and one-of decode leaves the caller's mapping without `_type`. -/
theorem C9_amended_witness :
    (Value.vList [.vInt 5] : Value) = .vList [.vInt 5] ∧
    (OneOfStringType.unserializeWithEffect oneofA
        (.vDict [(.vStr "_type", .vStr "a"), (.vStr "f", .vInt 1)]) []).2
      = .vDict [(.vStr "f", .vInt 1)] :=
  C9_amended listInt (.vList [.vStr "5"]) [] (.vList [.vInt 5]) (.vList [.vInt 5])
    oneofA [(.vStr "_type", .vStr "a"), (.vStr "f", .vInt 1)] [] "a" memberA
    rfl rfl rfl rfl

/-- Helper: `_unserialize_input` never surfaces a bare ConstraintError —
the only constraint outcome of input decoding is re-raised as
InvalidInput. -/
theorem unserializeInputOf_no_bare_constraint (step : StepType) (data : Value)
    (p : List String) (m : String) :
    SchemaType.unserializeInputOf step data ≠ .error (.constraint p m) := by
  unfold SchemaType.unserializeInputOf
  split <;> simp_all

/-- Helper: `_serialize_output` never surfaces a bare ConstraintError —
the only constraint outcome of output encoding is re-raised as
InvalidOutput. -/
theorem serializeOutputOf_no_bare_constraint (step : StepType)
    (output_id : String) (output_data : Value) (p : List String) (m : String) :
    SchemaType.serializeOutputOf step output_id output_data
      ≠ .error (.constraint p m) := by
  unfold SchemaType.serializeOutputOf
  split
  · simp
  · split <;> simp_all

/-- Helper: a step call with both validations skipped runs only the
handler and the declared-output-id check, so it cannot raise a
ConstraintError. -/
theorem stepCall_skipped_no_constraint (s : StepType) (params : Value)
    (p : List String) (m : String) :
    StepType.call s params true true ≠ .error (.constraint p m) := by
  unfold StepType.call
  simp only [Bool.not_true, Bool.false_eq_true, if_false]
  split <;> simp

/-- Helper: `SchemaType.__call__` without `skip_serialization` never
returns a bare ConstraintError: constraint errors from decoding are
wrapped as InvalidInput, those from encoding as InvalidOutput, and the
skipped-validation step call raises none. -/
theorem call_false_no_bare_constraint (s : SchemaType) (sid : String)
    (data : Value) (q : List String) (n : String) :
    SchemaType.call s sid data false ≠ .error (.constraint q n) := by
  intro hcontra
  unfold SchemaType.call at hcontra
  split at hcontra
  · simp at hcontra
  · rename_i step hstep
    split at hcontra
    · rename_i e heq
      injection hcontra with h
      rw [h] at heq
      exact unserializeInputOf_no_bare_constraint step data q n heq
    · rename_i input_param heq
      split at hcontra
      · rename_i e hc
        exact stepCall_skipped_no_constraint step input_param q n
          (hc.trans hcontra)
      · rename_i output_id output_data hc
        split at hcontra
        · rename_i hfalse
          simp at hfalse
        · split at hcontra
          · rename_i e hs
            injection hcontra with h
            rw [h] at hs
            exact serializeOutputOf_no_bare_constraint step output_id
              output_data q n hs
          · simp at hcontra

/-- C5 amended: at the `SchemaType` boundary, a ConstraintError raised
while decoding a step's input surfaces only as InvalidInput
(`unserialize_input`), one raised while encoding a step's output surfaces
only as InvalidOutput (`serialize_output`), and `__call__` without
`skip_serialization` never returns a bare ConstraintError; the
`skip_serialization` variant, by contrast, validates the output outside
the wrapping (see the counterexample). -/
theorem C5_amended (s : SchemaType) (sid : String) (step : StepType)
    (data data2 odata : Value) (oid : String) (out : AbstractType)
    (p1 : List String) (m1 : String) (p2 : List String) (m2 : String)
    (q : List String) (n : String)
    (h1 : lookupStr s.steps sid = some step)
    (h2 : step.input.unserialize data [] = .error (.constraint p1 m1))
    (h3 : lookupStr step.outputs oid = some out)
    (h4 : out.serialize odata [] = .error (.constraint p2 m2)) :
    s.unserialize_input sid data = .error (.invalidInput p1 m1) ∧
    s.serialize_output sid oid odata = .error (.invalidOutput p2 m2) ∧
    SchemaType.call s sid data2 false ≠ .error (.constraint q n) := by
  refine ⟨?_, ?_, call_false_no_bare_constraint s sid data2 q n⟩
  · simp [SchemaType.unserialize_input, SchemaType.unserializeInputOf, h1, h2]
  · simp [SchemaType.serialize_output, SchemaType.serializeOutputOf, h1, h3, h4]

/-- C5 amended witness: on the concrete schema, an input ConstraintError
surfaces as InvalidInput, an output ConstraintError surfaces as
InvalidOutput, and the non-skip call does not return the bare constraint. -/
theorem C5_amended_witness :
    SchemaType.unserialize_input schemaBadOutput "s" (.vInt 0)
      = .error (.invalidInput [] "Must be a dict, got int") ∧
    SchemaType.serialize_output schemaBadOutput "s" "out" (.vObj "Out" [("x", .vNone)])
      = .error (.invalidOutput ["x"] "This field is required") ∧
    SchemaType.call schemaBadOutput "s" (.vDict []) false
      ≠ .error (.constraint [] "") :=
  C5_amended schemaBadOutput "s" stepBadOutput (.vInt 0) (.vDict [])
    (.vObj "Out" [("x", .vNone)]) "out" (ObjectType.toAbstract outObj)
    [] "Must be a dict, got int" ["x"] "This field is required" [] ""
    rfl rfl rfl rfl

/-- C1 amended: for every object with two optional properties `X`
(declaring `conflicts=["Y"]`) and `Y`, and every typed value in which both
are present (with member-type validation and serialization succeeding),
`validate` raises the conflict ConstraintError while `serialize` — which
re-checks requiredness but not conflicts — succeeds and produces the wire
mapping holding both properties. -/
theorem C1_amended (TX TY : AbstractType) (c : PyClass) (path : List String)
    (vx vy sx sy : Value)
    (hnx : vx.isNone = false) (hny : vy.isNone = false)
    (hvx : TX.validate vx (path ++ ["X"]) = .ok ())
    (hvy : TY.validate vy (path ++ ["Y"]) = .ok ())
    (hsx : TX.serialize vx (path ++ ["X"]) = .ok sx)
    (hsy : TY.serialize vy (path ++ ["Y"]) = .ok sy) :
    (xyObj TX TY c).validate (.vObj c.name [("X", vx), ("Y", vy)]) path
      = .error (.constraint (path ++ ["X"]) "Field conflicts with Y") ∧
    (xyObj TX TY c).serialize (.vObj c.name [("X", vx), ("Y", vy)]) path
      = .ok (.vDict [(.vStr "X", sx), (.vStr "Y", sy)]) := by
  constructor
  · simp [xyObj, ObjectType.validate, ObjectType.validatePass1,
      ObjectType.validateProperty, ObjectType.validateNotSet,
      ObjectType.validatePass2, getattrD, lookupStr, containsKey,
      hnx, hny, hvx, hvy]
  · simp [xyObj, ObjectType.serialize, ObjectType.serializeProps,
      ObjectType.validateProperty, ObjectType.validateNotSet, getattrD,
      lookupStr, containsKey, hnx, hny, hsx, hsy]

/-- C1 amended witness: the schematic object instantiated at int members
with `X=1`, `Y=2`. -/
theorem C1_amended_witness :
    (xyObj intT intT ⟨"C", [("X", .vNone), ("Y", .vNone)]⟩).validate
        (.vObj "C" [("X", .vInt 1), ("Y", .vInt 2)]) []
      = .error (.constraint ["X"] "Field conflicts with Y") ∧
    (xyObj intT intT ⟨"C", [("X", .vNone), ("Y", .vNone)]⟩).serialize
        (.vObj "C" [("X", .vInt 1), ("Y", .vInt 2)]) []
      = .ok (.vDict [(.vStr "X", .vInt 1), (.vStr "Y", .vInt 2)]) :=
  C1_amended intT intT ⟨"C", [("X", .vNone), ("Y", .vNone)]⟩ []
    (.vInt 1) (.vInt 2) (.vInt 1) (.vInt 2) rfl rfl rfl rfl rfl rfl

/-- Helper: `None.isNone` evaluates to true (used to reduce the absent
branches under simp without unfolding `Value.isNone` everywhere). -/
theorem isNone_vNone_eq_true : Value.vNone.isNone = true := rfl

/-- C3: for every object with two optional properties `X` (declaring
`conflicts=["Y"]`) and `Y` (declaring nothing), over arbitrary member
types whose operations succeed on the supplied values: supplying only `X`
or only `Y` passes both decode and validate; supplying both raises a
ConstraintError in decode and in validate, although only `X` declares the
conflict. -/
theorem C3_conflicts_matrix (TX TY : AbstractType) (c : PyClass)
    (path : List String) (rx ry tx ty vx vy : Value)
    (hnrx : rx.isNone = false) (hnry : ry.isNone = false)
    (hnx : vx.isNone = false) (hny : vy.isNone = false)
    (hux : TX.unserialize rx (path ++ ["X"]) = .ok tx)
    (huy : TY.unserialize ry (path ++ ["Y"]) = .ok ty)
    (hvx : TX.validate vx (path ++ ["X"]) = .ok ())
    (hvy : TY.validate vy (path ++ ["Y"]) = .ok ()) :
    (xyObj TX TY c).unserialize (.vDict [(.vStr "X", rx)]) path
      = .ok (c.construct [("X", tx)]) ∧
    (xyObj TX TY c).unserialize (.vDict [(.vStr "Y", ry)]) path
      = .ok (c.construct [("Y", ty)]) ∧
    (xyObj TX TY c).unserialize (.vDict [(.vStr "X", rx), (.vStr "Y", ry)]) path
      = .error (.constraint (path ++ ["X"])
        "Field conflicts 'Y', set one of the two, not both") ∧
    (xyObj TX TY c).validate (.vObj c.name [("X", vx), ("Y", .vNone)]) path
      = .ok () ∧
    (xyObj TX TY c).validate (.vObj c.name [("X", .vNone), ("Y", vy)]) path
      = .ok () ∧
    (xyObj TX TY c).validate (.vObj c.name [("X", vx), ("Y", vy)]) path
      = .error (.constraint (path ++ ["X"]) "Field conflicts with Y") := by
  refine ⟨?_, ?_, ?_, ?_, ?_, ?_⟩ <;>
    simp [xyObj, ObjectType.unserialize, ObjectType.unknownKey,
      ObjectType.unserializeProps,
      ObjectType.validateNotSet, ObjectType.validate, ObjectType.validatePass1,
      ObjectType.validateProperty, ObjectType.validatePass2, dictLookup,
      dictHasKey, keyMatches, getattrD, lookupStr, containsKey, hasattr,
      isNone_vNone_eq_true, hnrx, hnry, hnx, hny, hux, huy, hvx, hvy]

/-- C3 witness: the conflicts matrix at int members with concrete values. -/
theorem C3_conflicts_matrix_witness :
    (xyObj intT intT ⟨"C", [("X", .vNone), ("Y", .vNone)]⟩).unserialize
        (.vDict [(.vStr "X", .vInt 1)]) []
      = .ok ((⟨"C", [("X", .vNone), ("Y", .vNone)]⟩ : PyClass).construct
          [("X", .vInt 1)]) ∧
    (xyObj intT intT ⟨"C", [("X", .vNone), ("Y", .vNone)]⟩).unserialize
        (.vDict [(.vStr "Y", .vInt 2)]) []
      = .ok ((⟨"C", [("X", .vNone), ("Y", .vNone)]⟩ : PyClass).construct
          [("Y", .vInt 2)]) ∧
    (xyObj intT intT ⟨"C", [("X", .vNone), ("Y", .vNone)]⟩).unserialize
        (.vDict [(.vStr "X", .vInt 1), (.vStr "Y", .vInt 2)]) []
      = .error (.constraint ["X"]
        "Field conflicts 'Y', set one of the two, not both") ∧
    (xyObj intT intT ⟨"C", [("X", .vNone), ("Y", .vNone)]⟩).validate
        (.vObj "C" [("X", .vInt 1), ("Y", .vNone)]) [] = .ok () ∧
    (xyObj intT intT ⟨"C", [("X", .vNone), ("Y", .vNone)]⟩).validate
        (.vObj "C" [("X", .vNone), ("Y", .vInt 2)]) [] = .ok () ∧
    (xyObj intT intT ⟨"C", [("X", .vNone), ("Y", .vNone)]⟩).validate
        (.vObj "C" [("X", .vInt 1), ("Y", .vInt 2)]) []
      = .error (.constraint ["X"] "Field conflicts with Y") :=
  C3_conflicts_matrix intT intT ⟨"C", [("X", .vNone), ("Y", .vNone)]⟩ []
    (.vInt 1) (.vInt 2) (.vInt 1) (.vInt 2) (.vInt 1) (.vInt 2)
    rfl rfl rfl rfl rfl rfl rfl rfl

/-- Helper: filtering out only elements that fail a predicate does not
change the result of `find?` for that predicate's searches: if every
removed element also fails `p`, the first `p`-match is preserved. -/
theorem find?_filter_of_removed {α : Type} (l : List α) (p r : α → Bool)
    (h : ∀ x, r x = false → p x = false) :
    (l.filter r).find? p = l.find? p := by
  induction l with
  | nil => rfl
  | cons a t ih =>
      by_cases hr : r a = true
      · rw [List.filter_cons_of_pos hr, List.find?_cons, List.find?_cons]
        cases hp : p a
        · exact ih
        · rfl
      · have hra : r a = false := by simpa using hr
        rw [List.filter_cons_of_neg (by simp [hra]), List.find?_cons,
          h a hra, ih]

/-- Helper: `find?` only depends on the predicate's values on the list's
elements. -/
theorem find?_congr_mem {α : Type} (l : List α) (p q : α → Bool)
    (h : ∀ x ∈ l, p x = q x) : l.find? p = l.find? q := by
  induction l with
  | nil => rfl
  | cons a t ih =>
      rw [List.find?_cons, List.find?_cons, h a (by simp)]
      cases q a
      · exact ih (fun x hx => h x (by simp [hx]))
      · rfl

/-- Helper: `any` only depends on the predicate's values on the list's
elements. -/
theorem any_congr_mem {α : Type} (l : List α) (p q : α → Bool)
    (h : ∀ x ∈ l, p x = q x) : l.any p = l.any q := by
  induction l with
  | nil => rfl
  | cons a t ih =>
      rw [List.any_cons, List.any_cons, h a (by simp)]
      rw [ih (fun x hx => h x (by simp [hx]))]

/-- Helper: a member of a list that does not contain `pid` differs from
`pid`. -/
theorem mem_ne_of_contains_false {l : List String} {pid r : String}
    (hc : l.contains pid = false) (hr : r ∈ l) : r ≠ pid := by
  intro h
  subst h
  simp at hc
  exact hc hr

/-- Helper: deleting the key `k` from a dict does not change lookups of a
different key `q`. -/
theorem dictLookup_erase_ne (entries : List (Value × Value)) (k q : String)
    (hqk : q ≠ k) :
    dictLookup (dictEraseKey entries k) q = dictLookup entries q := by
  unfold dictLookup dictEraseKey
  rw [find?_filter_of_removed]
  intro x hx
  cases hx1 : x.1 <;> simp [keyMatches, hx1] at hx ⊢
  subst hx
  exact fun h => absurd h.symm hqk

/-- Helper: after deleting the key `k` from a dict, looking `k` up finds
nothing. -/
theorem dictLookup_erase_self (entries : List (Value × Value)) (k : String) :
    dictLookup (dictEraseKey entries k) k = none := by
  unfold dictLookup dictEraseKey
  have : (entries.filter (fun p => !(keyMatches k p.1))).find?
      (fun p => keyMatches k p.1) = none := by
    rw [List.find?_eq_none]
    intro x hx
    have hmem := (List.mem_filter.mp hx).2
    simp at hmem
    simp [hmem]
  rw [this]
  rfl

/-- Helper: deleting the key `k` from a dict does not change membership of
a different key `q`. -/
theorem dictHasKey_erase_ne (entries : List (Value × Value)) (k q : String)
    (hqk : q ≠ k) :
    dictHasKey (dictEraseKey entries k) q = dictHasKey entries q := by
  unfold dictHasKey
  rw [dictLookup_erase_ne entries k q hqk]

/-- Helper: on a raw dict, `_validate_not_set` reduces to pure
key-membership tests: `hasattr` is false for a dict, so the sibling
presence tests are exactly `required_if in data` / `required_if_not in
data`. -/
theorem validateNotSet_dict (e : List (Value × Value)) (prop : PropertyType)
    (path : List String) :
    ObjectType.validateNotSet (.vDict e) prop path =
      if prop.required then .error (.constraint path "This field is required")
      else
        match prop.required_if.find? (fun r => dictHasKey e r) with
        | some required_if =>
            .error (.constraint path
              ("This field is required because '" ++ required_if ++ "' is set"))
        | none =>
            if prop.required_if_not.length > 0 then
              if prop.required_if_not.any (fun r => dictHasKey e r) then .ok ()
              else if prop.required_if_not.length == 1 then
                .error (.constraint path
                  ("This field is required because '"
                    ++ prop.required_if_not.headD "" ++ "' is not set"))
              else
                .error (.constraint path
                  ("This field is required because none of '"
                    ++ String.intercalate "', '" prop.required_if_not
                    ++ "' are set"))
            else .ok () := by
  unfold ObjectType.validateNotSet
  simp [hasattr]

/-- Helper: when the raw dict maps `pid` to `None` and no property's rule
sets mention `pid`, the property loop of `ObjectType.unserialize` computes
the same kwargs on the dict and on the dict with the `pid` key deleted:
the `None`-valued key is treated exactly like an absent one. -/
theorem unserializeProps_erase (entries : List (Value × Value)) (pid : String)
    (path : List String) (hv : dictLookup entries pid = some .vNone) :
    ∀ props : List (String × PropertyType),
      (∀ pp ∈ props, pp.2.required_if.contains pid = false ∧
          pp.2.required_if_not.contains pid = false ∧
          pp.2.conflicts.contains pid = false) →
      ObjectType.unserializeProps entries path props
        = ObjectType.unserializeProps (dictEraseKey entries pid) path props := by
  intro props
  induction props with
  | nil => intro _; rfl
  | cons pp rest ih =>
      intro href
      obtain ⟨q, prop⟩ := pp
      have hqr : prop.required_if.contains pid = false := (href (q, prop) (by simp)).1
      have hqn : prop.required_if_not.contains pid = false :=
        (href (q, prop) (by simp)).2.1
      have hqc : prop.conflicts.contains pid = false := (href (q, prop) (by simp)).2.2
      have hrest : ∀ pp ∈ rest, pp.2.required_if.contains pid = false ∧
          pp.2.required_if_not.contains pid = false ∧
          pp.2.conflicts.contains pid = false :=
        fun x hx => href x (by simp [hx])
      have hvns : ObjectType.validateNotSet (.vDict entries) prop (path ++ [q])
          = ObjectType.validateNotSet (.vDict (dictEraseKey entries pid)) prop
            (path ++ [q]) := by
        rw [validateNotSet_dict, validateNotSet_dict]
        rw [find?_congr_mem prop.required_if
          (fun r => dictHasKey entries r)
          (fun r => dictHasKey (dictEraseKey entries pid) r)
          (fun r hr => (dictHasKey_erase_ne entries pid r
            (mem_ne_of_contains_false hqr hr)).symm)]
        rw [any_congr_mem prop.required_if_not
          (fun r => dictHasKey entries r)
          (fun r => dictHasKey (dictEraseKey entries pid) r)
          (fun r hr => (dictHasKey_erase_ne entries pid r
            (mem_ne_of_contains_false hqn hr)).symm)]
      by_cases hqp : q = pid
      · subst hqp
        simp only [ObjectType.unserializeProps, hv, dictLookup_erase_self,
          Option.getD_some, Option.getD_none, isNone_vNone_eq_true,
          Bool.not_true, Bool.false_eq_true, if_false]
        rw [← hvns]
        cases hvr : ObjectType.validateNotSet (.vDict entries) prop (path ++ [q])
        · rfl
        · exact ih hrest
      · have hlk : dictLookup (dictEraseKey entries pid) q = dictLookup entries q :=
          dictLookup_erase_ne entries pid q hqp
        simp only [ObjectType.unserializeProps, hlk]
        by_cases hC : (!((dictLookup entries q).getD .vNone).isNone) = true
        · simp only [hC, if_true]
          cases hu : prop.type.unserialize ((dictLookup entries q).getD .vNone)
              (path ++ [q])
          · rfl
          · rw [show prop.conflicts.find?
                  (fun c => dictHasKey (dictEraseKey entries pid) c)
                = prop.conflicts.find? (fun c => dictHasKey entries c) from
                find?_congr_mem prop.conflicts _ _
                  (fun c hc => dictHasKey_erase_ne entries pid c
                    (mem_ne_of_contains_false hqc hc))]
            cases hfind : prop.conflicts.find? (fun c => dictHasKey entries c)
            · rw [← ih hrest]
            · rfl
        · simp only [hC, if_false, Bool.false_eq_true]
          rw [← hvns]
          cases hvr : ObjectType.validateNotSet (.vDict entries) prop (path ++ [q])
          · rfl
          · exact ih hrest

/-- C10 amended: a `None`-valued wire key is equivalent to an omitted key
exactly when no property's rule sets reference it. For every object and
raw dict in which the declared property `pid` is present with the value
`None`, and whose property `required_if`/`required_if_not`/`conflicts`
lists never mention `pid`, decode behaves exactly as if the `pid` key were
omitted: the value is never decoded, the requiredness algorithm treats the
property as absent, and the key is not passed to the dataclass
constructor, which fills the field from its own default. (Without that
hypothesis the equivalence fails: the sibling-presence tests use raw key
membership, where a `None`-valued key counts as present — see the
counterexample.) -/
theorem C10_null_key_like_omitted (o : ObjectType) (entries : List (Value × Value))
    (pid : String) (path : List String)
    (hv : dictLookup entries pid = some .vNone)
    (hdecl : containsKey o.properties pid = true)
    (href : ∀ pp ∈ o.properties, pp.2.required_if.contains pid = false ∧
        pp.2.required_if_not.contains pid = false ∧
        pp.2.conflicts.contains pid = false) :
    o.unserialize (.vDict entries) path
      = o.unserialize (.vDict (dictEraseKey entries pid)) path := by
  simp only [ObjectType.unserialize]
  have hfind : (dictEraseKey entries pid).find? o.unknownKey
      = entries.find? o.unknownKey := by
    unfold dictEraseKey
    apply find?_filter_of_removed
    intro x hx
    simp at hx
    unfold ObjectType.unknownKey
    cases hx1 : x.1 <;> simp_all [keyMatches]
  rw [hfind]
  cases hfnd : entries.find? o.unknownKey
  · rw [unserializeProps_erase entries pid path hv o.properties href]
  · rfl

/-- C10 witness: on the concrete conflicts object, decoding
`{X: None, Y: 2}` equals decoding `{Y: 2}`. -/
theorem C10_null_key_like_omitted_witness :
    conflictObj.unserialize
        (.vDict [(.vStr "X", .vNone), (.vStr "Y", .vInt 2)]) []
      = conflictObj.unserialize
          (.vDict (dictEraseKey [(.vStr "X", .vNone), (.vStr "Y", .vInt 2)] "X"))
          [] :=
  C10_null_key_like_omitted conflictObj
    [(.vStr "X", .vNone), (.vStr "Y", .vInt 2)] "X" [] rfl rfl
    (by
      intro pp hpp
      rcases List.mem_cons.mp hpp with h | h2
      · subst h; exact ⟨rfl, rfl, rfl⟩
      · rcases List.mem_cons.mp h2 with h | h3
        · subst h; exact ⟨rfl, rfl, rfl⟩
        · exact absurd h3 (List.not_mem_nil _))

/-- C10 counterexample: decode does not treat a `None`-valued key exactly
like an omitted key. On the object where `a` declares `required_if=["b"]`,
decoding the raw mapping with the single entry `b: None` raises — the
sibling-presence test `required_if in data` is raw key membership, so the
`None`-valued `b` counts as set — while decoding the empty mapping
succeeds. -/
theorem C10_counterexample :
    reqIfObj.unserialize (.vDict [(.vStr "b", .vNone)]) []
      = .error (.constraint ["a"] "This field is required because 'b' is set") ∧
    reqIfObj.unserialize (.vDict []) []
      = .ok (.vObj "P2" [("a", .vNone), ("b", .vNone)]) :=
  ⟨rfl, rfl⟩
